import Mathlib

/-!
A verification development for a Bitcoin dashboard client (React single-page
app). The core under study is the multi-source polling and aggregation engine
in `src/App.js`: four source adapters (latest block info, market metrics,
price series, sentiment index), an aggregator that runs the four adapters per
refresh cycle, and an interval-based scheduler.

The JavaScript is shallowly embedded: JSON/JS values become the inductive
`JsVal`; a `fetch` call's outcome becomes `FetchOutcome` (network rejection,
or a response with an `ok` flag and a JSON body that parsed or did not);
property and index accesses become `Except`-valued functions that raise the
TypeError message JavaScript would raise when reading a property of
`undefined` or `null`; React state setters become functional updates of the
record `AggregateState`.  Each adapter `fetchX` is a try/catch around a body;
the body is embedded as a function `fetchXTry : AggregateState →
AggregateState × Option String` whose second component is the exception (if
any) escaping the try block, with all state-setter calls made before the
throw already applied to the returned state; the catch clause (`setError`) is
the common wrapper `runCatch`.
-/

namespace BitcoinDashboard

/-- JavaScript values as far as the dashboard manipulates them: the JSON
value grammar plus `undefined` (the result of reading an absent property). -/
inductive JsVal where
  | undefined : JsVal
  | null : JsVal
  | bool : Bool → JsVal
  | num : Rat → JsVal
  | str : String → JsVal
  | arr : List JsVal → JsVal
  | obj : List (String × JsVal) → JsVal

/-- A single-quote character, used to spell JavaScript TypeError messages. -/
def sq : String := String.singleton (Char.ofNat 39)

/-- The message of the TypeError raised when reading property `k` of
`undefined` or `null` (`base` names which of the two). -/
def propReadError (base : String) (k : String) : String :=
  "Cannot read properties of " ++ base ++ " (reading " ++ sq ++ k ++ sq ++ ")"

/-- First binding of key `k` in a JS object's field list; absent keys read as
`undefined`. -/
def lookupField (fs : List (String × JsVal)) (k : String) : JsVal :=
  match fs.find? (fun p => p.1 = k) with
  | some p => p.2
  | none => .undefined

/-- JavaScript property read `v.k`: throws a TypeError on `undefined` and
`null`, looks up the key on objects, and yields `undefined` on the other
primitives and on arrays (no array method is read through here). -/
def getField : JsVal → String → Except String JsVal
  | .undefined, k => .error (propReadError "undefined" k)
  | .null, k => .error (propReadError "null" k)
  | .obj fs, k => .ok (lookupField fs k)
  | _, _ => .ok .undefined

/-- JavaScript index read `v[i]`: throws a TypeError on `undefined` and
`null`, reads the `i`-th element of an array (`undefined` past the end), the
key `toString i` of an object, the `i`-th character of a string, and
`undefined` otherwise. -/
def getIndex : JsVal → Nat → Except String JsVal
  | .undefined, i => .error (propReadError "undefined" (toString i))
  | .null, i => .error (propReadError "null" (toString i))
  | .arr xs, i =>
    .ok (match xs.get? i with
         | some v => v
         | none => .undefined)
  | .obj fs, i => .ok (lookupField fs (toString i))
  | .str s, i =>
    .ok (match s.toList.get? i with
         | some c => .str (String.singleton c)
         | none => .undefined)
  | _, _ => .ok .undefined

/-- JavaScript truthiness of an embedded value. -/
def truthy : JsVal → Bool
  | .undefined => false
  | .null => false
  | .bool b => b
  | .num q => q != 0
  | .str s => s != ""
  | .arr _ => true
  | .obj _ => true

/-- Outcome of one `fetch(url)` call together with the subsequent
`response.json()`: either the fetch promise rejected with a message, or a
response arrived carrying its `ok` flag and the result of JSON-parsing the
body (`Except.error` when the body is not valid JSON). -/
inductive FetchOutcome where
  | reject : String → FetchOutcome
  | resp : Bool → Except String JsVal → FetchOutcome

/-- The object passed to `setBlockInfo` (fields copied verbatim from the
latest block of the block API response). -/
structure BlockInfoR where
  hash : JsVal
  size : JsVal
  difficulty : JsVal
  totalVolume : JsVal

/-- The object passed to `setBtcMetrics` (fields copied verbatim from the
market API response). -/
structure BtcMetricsR where
  marketCap : JsVal
  volume24h : JsVal
  priceChange24h : JsVal
  priceChange7d : JsVal

/-- The object passed to `setPriceData`: the chart labels and the single
dataset (its numeric series plus the constant styling fields set in the
source). -/
structure PriceDataR where
  labels : List String
  datasetLabel : String
  data : List JsVal
  borderColor : String
  backgroundColor : String
  fill : Bool

/-- The object passed to `setFearGreedIndex` (fields copied verbatim from the
sentiment API response). -/
structure FearGreedR where
  value : JsVal
  classification : JsVal

/-- The aggregate React state of the `App` component: the six data fields set
by the four adapters plus the error message.  Each starts `none` (the `null`
passed to `useState`), the error starts as the empty string. -/
structure AggregateState where
  blockInfo : Option BlockInfoR := none
  blockHeight : Option JsVal := none
  btcPrice : Option JsVal := none
  btcMetrics : Option BtcMetricsR := none
  priceData : Option PriceDataR := none
  fearGreedIndex : Option FearGreedR := none
  error : String := ""

/-- The state at component mount. -/
def initialState : AggregateState := {}

/-- The catch clause shared by every adapter: an exception escaping the try
body is converted into `setError(err.message)` and swallowed, so the wrapped
function itself never throws (second component of the result). -/
def runCatch (body : AggregateState → AggregateState × Option String)
    (s : AggregateState) : AggregateState × Option String :=
  match body s with
  | (s1, some m) => ({ s1 with error := m }, none)
  | (s1, none) => (s1, none)

/-- Try body of `fetchLatestBlockInfo` (App.js lines 18–39): fetch the block
list, require `response.ok`, parse JSON, take `data.data[0]`; if that value
is truthy, `setBlockHeight(latestBlock.id)` then `setBlockInfo({...})`, else
throw `No latest block data found`. -/
def fetchLatestBlockInfoTry (o : FetchOutcome) (s : AggregateState) :
    AggregateState × Option String :=
  match o with
  | .reject m => (s, some m)
  | .resp ok body =>
    if !ok then (s, some "Failed to fetch latest block info")
    else
      match body with
      | .error m => (s, some m)
      | .ok data =>
        match (do
            let d ← getField data "data"
            getIndex d 0 : Except String JsVal) with
        | .error m => (s, some m)
        | .ok latestBlock =>
          if truthy latestBlock then
            match (do
                let idv ← getField latestBlock "id"
                let hashv ← getField latestBlock "hash"
                let sizev ← getField latestBlock "size"
                let diffv ← getField latestBlock "difficulty"
                let weightv ← getField latestBlock "weight"
                pure (idv, hashv, sizev, diffv, weightv) :
                  Except String (JsVal × JsVal × JsVal × JsVal × JsVal)) with
            | .error m => (s, some m)
            | .ok (idv, hashv, sizev, diffv, weightv) =>
              ({ s with
                  blockHeight := some idv,
                  blockInfo := some ⟨hashv, sizev, diffv, weightv⟩ }, none)
          else (s, some "No latest block data found")

/-- `fetchLatestBlockInfo` with its catch clause. -/
def fetchLatestBlockInfo (o : FetchOutcome) (s : AggregateState) :
    AggregateState × Option String :=
  runCatch (fetchLatestBlockInfoTry o) s

/-- Try body of `fetchBtcMetrics` (App.js lines 41–57): fetch market data,
require `response.ok`, parse JSON, then
`setBtcPrice(data.market_data.current_price.usd)` and afterwards
`setBtcMetrics({...})`, whose object literal reads
`market_cap.usd`, `total_volume.usd`, `price_change_percentage_24h` and
`price_change_percentage_7d` in that order.  Note the price is set before
the metrics object is evaluated: a TypeError raised while building the
metrics object leaves the freshly set price in place. -/
def fetchBtcMetricsTry (o : FetchOutcome) (s : AggregateState) :
    AggregateState × Option String :=
  match o with
  | .reject m => (s, some m)
  | .resp ok body =>
    if !ok then (s, some "Failed to fetch Bitcoin metrics")
    else
      match body with
      | .error m => (s, some m)
      | .ok data =>
        match (do
            let md ← getField data "market_data"
            let cp ← getField md "current_price"
            getField cp "usd" : Except String JsVal) with
        | .error m => (s, some m)
        | .ok pricev =>
          let s1 := { s with btcPrice := some pricev }
          match (do
              let md ← getField data "market_data"
              let mc ← getField md "market_cap"
              let mcUsd ← getField mc "usd"
              let tv ← getField md "total_volume"
              let tvUsd ← getField tv "usd"
              let p24 ← getField md "price_change_percentage_24h"
              let p7 ← getField md "price_change_percentage_7d"
              pure (mcUsd, tvUsd, p24, p7) :
                Except String (JsVal × JsVal × JsVal × JsVal)) with
          | .error m => (s1, some m)
          | .ok (mcUsd, tvUsd, p24, p7) =>
            ({ s1 with btcMetrics := some ⟨mcUsd, tvUsd, p24, p7⟩ }, none)

/-- `fetchBtcMetrics` with its catch clause. -/
def fetchBtcMetrics (o : FetchOutcome) (s : AggregateState) :
    AggregateState × Option String :=
  runCatch (fetchBtcMetricsTry o) s

/-- The label the price-series adapter derives from one raw price point's
first component: `new Date(x).getHours() + ':00'`.  For a numeric timestamp
the platform's local-time conversion yields the local hour of day; it is
taken as the parameter `getHours`.  A non-numeric argument yields an invalid
date whose hour is `NaN`. -/
def jsHourLabel (getHours : Rat → Int) : JsVal → String
  | .num q => toString (getHours q) ++ ":00"
  | _ => "NaN:00"

/-- `Array.prototype.slice(-n)`: the trailing `n` elements, or the whole
array when it has fewer than `n`. -/
def jsSliceNeg (n : Nat) (xs : List α) : List α := xs.drop (xs.length - n)

/-- Try body of `fetchPriceData` (App.js lines 59–87): fetch the 2-day price
chart, require `response.ok`, parse JSON, map `data.prices` to hour-of-day
labels and to the raw prices, and set the chart data from the trailing 24 of
each (`slice(-24)`), together with the constant dataset styling.  Calling
`.map` on a non-array `data.prices` throws a TypeError. -/
def fetchPriceDataTry (getHours : Rat → Int) (o : FetchOutcome)
    (s : AggregateState) : AggregateState × Option String :=
  match o with
  | .reject m => (s, some m)
  | .resp ok body =>
    if !ok then (s, some "Failed to fetch price data")
    else
      match body with
      | .error m => (s, some m)
      | .ok data =>
        match getField data "prices" with
        | .error m => (s, some m)
        | .ok pricesv =>
          match pricesv with
          | .arr pts =>
            match pts.mapM (fun pt => do
                let t ← getIndex pt 0
                pure (jsHourLabel getHours t)) with
            | .error m => (s, some m)
            | .ok labels =>
              match pts.mapM (fun pt => getIndex pt 1) with
              | .error m => (s, some m)
              | .ok prices =>
                ({ s with
                    priceData := some
                      { labels := jsSliceNeg 24 labels
                        datasetLabel := "Bitcoin Price (USD)"
                        data := jsSliceNeg 24 prices
                        borderColor := "rgba(75, 192, 192, 1)"
                        backgroundColor := "rgba(75, 192, 192, 0.2)"
                        fill := true } }, none)
          | _ => (s, some "data.prices.map is not a function")

/-- `fetchPriceData` with its catch clause. -/
def fetchPriceData (getHours : Rat → Int) (o : FetchOutcome)
    (s : AggregateState) : AggregateState × Option String :=
  runCatch (fetchPriceDataTry getHours o) s

/-- Try body of `fetchFearGreedIndex` (App.js lines 89–102): fetch the index,
require `response.ok`, parse JSON, take `data.data[0]`, and set the snapshot
from its `value` and `value_classification` fields, copied verbatim. -/
def fetchFearGreedIndexTry (o : FetchOutcome) (s : AggregateState) :
    AggregateState × Option String :=
  match o with
  | .reject m => (s, some m)
  | .resp ok body =>
    if !ok then (s, some "Failed to fetch Fear and Greed Index")
    else
      match body with
      | .error m => (s, some m)
      | .ok data =>
        match (do
            let d ← getField data "data"
            getIndex d 0 : Except String JsVal) with
        | .error m => (s, some m)
        | .ok indexData =>
          match (do
              let v ← getField indexData "value"
              let c ← getField indexData "value_classification"
              pure (v, c) : Except String (JsVal × JsVal)) with
          | .error m => (s, some m)
          | .ok (v, c) => ({ s with fearGreedIndex := some ⟨v, c⟩ }, none)

/-- `fetchFearGreedIndex` with its catch clause. -/
def fetchFearGreedIndex (o : FetchOutcome) (s : AggregateState) :
    AggregateState × Option String :=
  runCatch (fetchFearGreedIndexTry o) s

/-- `fetchLatestData` of `src/App.js` (lines 104–111): `Promise.all` over the
four adapter calls.  The four adapters write disjoint state fields, and each
swallows its own exceptions, so the concurrent join is modelled by applying
the four adapters in program order; the second component is the rejection
(if any) of the `Promise.all` promise, which rejects exactly when some
member promise rejects. -/
def fetchLatestData (getHours : Rat → Int) (o1 o2 o3 o4 : FetchOutcome)
    (s : AggregateState) : AggregateState × Option String :=
  let r1 := fetchLatestBlockInfo o1 s
  let r2 := fetchBtcMetrics o2 r1.1
  let r3 := fetchPriceData getHours o3 r2.1
  let r4 := fetchFearGreedIndex o4 r3.1
  (r4.1, r1.2 <|> r2.2 <|> r3.2 <|> r4.2)

/-- `fetchLatestData` of the second source file (lines 18–27): the four
adapter calls awaited one after another inside a try block; a rejection of
any awaited promise skips the remaining adapters and lands in the catch
clause, which records the message via `setError`. -/
def fetchLatestDataSeq (getHours : Rat → Int) (o1 o2 o3 o4 : FetchOutcome)
    (s : AggregateState) : AggregateState × Option String :=
  runCatch (fun s0 =>
    let r1 := fetchLatestBlockInfo o1 s0
    match r1.2 with
    | some m => (r1.1, some m)
    | none =>
      let r2 := fetchBtcMetrics o2 r1.1
      match r2.2 with
      | some m => (r2.1, some m)
      | none =>
        let r3 := fetchPriceData getHours o3 r2.1
        match r3.2 with
        | some m => (r3.1, some m)
        | none =>
          let r4 := fetchFearGreedIndex o4 r3.1
          match r4.2 with
          | some m => (r4.1, some m)
          | none => (r4.1, none)) s

/-- `getEmojiForClassification` (App.js lines 114–129): the switch mapping a
sentiment classification string to its emoji, with an empty-string default. -/
def getEmojiForClassification (classification : String) : String :=
  if classification = "Extreme Fear" then "🙀"
  else if classification = "Fear" then "😨"
  else if classification = "Neutral" then "😐"
  else if classification = "Greed" then "🤑"
  else if classification = "Extreme Greed" then "😈"
  else ""

/-- The refresh interval passed to `setInterval` (App.js line 133). -/
def refreshIntervalMs : Nat := 60000

/-- Modelled platform timer semantics for the `useEffect` scheduler (App.js
lines 131–139): the effect invokes the cycle callback immediately at start
(time 0) and registers an interval that fires the callback at each positive
multiple of `intervalMs`; the cleanup (`clearInterval`), run at time
`stopAt`, cancels all later firings.  `schedulerInvokedAt intervalMs stopAt
t` says whether the callback is invoked at time `t` (milliseconds since
start), for a component unmounted at `stopAt > 0`. -/
def schedulerInvokedAt (intervalMs stopAt t : Nat) : Bool :=
  t == 0 || (0 < t && t % intervalMs == 0 && t < stopAt)

/-! ### Basic lemmas about the adapters -/

/-- States that agree on every data field, allowing the error message to
differ. -/
def eqExceptError (s t : AggregateState) : Prop :=
  s.blockInfo = t.blockInfo ∧ s.blockHeight = t.blockHeight ∧
  s.btcPrice = t.btcPrice ∧ s.btcMetrics = t.btcMetrics ∧
  s.priceData = t.priceData ∧ s.fearGreedIndex = t.fearGreedIndex

theorem runCatch_snd (b : AggregateState → AggregateState × Option String)
    (s : AggregateState) : (runCatch b s).2 = none := by
  unfold runCatch
  rcases b s with ⟨s1, e⟩
  cases e <;> rfl

theorem runCatch_fst_data (b : AggregateState → AggregateState × Option String)
    (s : AggregateState) : eqExceptError (runCatch b s).1 (b s).1 := by
  unfold runCatch
  rcases b s with ⟨s1, e⟩
  cases e <;> exact ⟨rfl, rfl, rfl, rfl, rfl, rfl⟩

theorem runCatch_fst_error (b : AggregateState → AggregateState × Option String)
    (s : AggregateState) :
    (runCatch b s).1.error =
      match (b s).2 with
      | some m => m
      | none => (b s).1.error := by
  unfold runCatch
  rcases b s with ⟨s1, e⟩
  cases e <;> rfl

/-- The block-info try body only writes `blockHeight` and `blockInfo`:
every other field, including the error message, is returned unchanged. -/
theorem fetchLatestBlockInfoTry_frame (o : FetchOutcome) (s : AggregateState) :
    (fetchLatestBlockInfoTry o s).1.btcPrice = s.btcPrice ∧
    (fetchLatestBlockInfoTry o s).1.btcMetrics = s.btcMetrics ∧
    (fetchLatestBlockInfoTry o s).1.priceData = s.priceData ∧
    (fetchLatestBlockInfoTry o s).1.fearGreedIndex = s.fearGreedIndex ∧
    (fetchLatestBlockInfoTry o s).1.error = s.error := by
  cases o with
  | reject m => exact ⟨rfl, rfl, rfl, rfl, rfl⟩
  | resp ok body =>
    simp only [fetchLatestBlockInfoTry]
    repeat' split
    all_goals exact ⟨rfl, rfl, rfl, rfl, rfl⟩

/-- The try-body exception of the block-info adapter is independent of the
state. -/
theorem fetchLatestBlockInfoTry_snd_const (o : FetchOutcome)
    (s t : AggregateState) :
    (fetchLatestBlockInfoTry o s).2 = (fetchLatestBlockInfoTry o t).2 := by
  cases o with
  | reject m => rfl
  | resp ok body =>
    simp only [fetchLatestBlockInfoTry]
    repeat' split
    all_goals rfl

/-- The market try body only writes `btcPrice` and `btcMetrics`. -/
theorem fetchBtcMetricsTry_frame (o : FetchOutcome) (s : AggregateState) :
    (fetchBtcMetricsTry o s).1.blockInfo = s.blockInfo ∧
    (fetchBtcMetricsTry o s).1.blockHeight = s.blockHeight ∧
    (fetchBtcMetricsTry o s).1.priceData = s.priceData ∧
    (fetchBtcMetricsTry o s).1.fearGreedIndex = s.fearGreedIndex ∧
    (fetchBtcMetricsTry o s).1.error = s.error := by
  cases o with
  | reject m => exact ⟨rfl, rfl, rfl, rfl, rfl⟩
  | resp ok body =>
    simp only [fetchBtcMetricsTry]
    repeat' split
    all_goals exact ⟨rfl, rfl, rfl, rfl, rfl⟩

/-- The try-body exception of the market adapter is independent of the
state. -/
theorem fetchBtcMetricsTry_snd_const (o : FetchOutcome)
    (s t : AggregateState) :
    (fetchBtcMetricsTry o s).2 = (fetchBtcMetricsTry o t).2 := by
  cases o with
  | reject m => rfl
  | resp ok body =>
    simp only [fetchBtcMetricsTry]
    repeat' split
    all_goals rfl

/-- The price-series try body only writes `priceData`. -/
theorem fetchPriceDataTry_frame (getHours : Rat → Int) (o : FetchOutcome)
    (s : AggregateState) :
    (fetchPriceDataTry getHours o s).1.blockInfo = s.blockInfo ∧
    (fetchPriceDataTry getHours o s).1.blockHeight = s.blockHeight ∧
    (fetchPriceDataTry getHours o s).1.btcPrice = s.btcPrice ∧
    (fetchPriceDataTry getHours o s).1.btcMetrics = s.btcMetrics ∧
    (fetchPriceDataTry getHours o s).1.fearGreedIndex = s.fearGreedIndex ∧
    (fetchPriceDataTry getHours o s).1.error = s.error := by
  cases o with
  | reject m => exact ⟨rfl, rfl, rfl, rfl, rfl, rfl⟩
  | resp ok body =>
    simp only [fetchPriceDataTry]
    repeat' split
    all_goals exact ⟨rfl, rfl, rfl, rfl, rfl, rfl⟩

/-- The try-body exception of the price-series adapter is independent of the
state. -/
theorem fetchPriceDataTry_snd_const (getHours : Rat → Int) (o : FetchOutcome)
    (s t : AggregateState) :
    (fetchPriceDataTry getHours o s).2 = (fetchPriceDataTry getHours o t).2 := by
  cases o with
  | reject m => rfl
  | resp ok body =>
    simp only [fetchPriceDataTry]
    repeat' split
    all_goals rfl

/-- The sentiment try body only writes `fearGreedIndex`. -/
theorem fetchFearGreedIndexTry_frame (o : FetchOutcome) (s : AggregateState) :
    (fetchFearGreedIndexTry o s).1.blockInfo = s.blockInfo ∧
    (fetchFearGreedIndexTry o s).1.blockHeight = s.blockHeight ∧
    (fetchFearGreedIndexTry o s).1.btcPrice = s.btcPrice ∧
    (fetchFearGreedIndexTry o s).1.btcMetrics = s.btcMetrics ∧
    (fetchFearGreedIndexTry o s).1.priceData = s.priceData ∧
    (fetchFearGreedIndexTry o s).1.error = s.error := by
  cases o with
  | reject m => exact ⟨rfl, rfl, rfl, rfl, rfl, rfl⟩
  | resp ok body =>
    simp only [fetchFearGreedIndexTry]
    repeat' split
    all_goals exact ⟨rfl, rfl, rfl, rfl, rfl, rfl⟩

/-- The try-body exception of the sentiment adapter is independent of the
state. -/
theorem fetchFearGreedIndexTry_snd_const (o : FetchOutcome)
    (s t : AggregateState) :
    (fetchFearGreedIndexTry o s).2 = (fetchFearGreedIndexTry o t).2 := by
  cases o with
  | reject m => rfl
  | resp ok body =>
    simp only [fetchFearGreedIndexTry]
    repeat' split
    all_goals rfl

/-- The failure message (if any) the block-info adapter produces on outcome
`o`.  By `fetchLatestBlockInfoTry_snd_const` this is the try-body exception
for every starting state. -/
def blockFailureMsg (o : FetchOutcome) : Option String :=
  (fetchLatestBlockInfoTry o initialState).2

/-- The failure message (if any) the market adapter produces on outcome `o`. -/
def marketFailureMsg (o : FetchOutcome) : Option String :=
  (fetchBtcMetricsTry o initialState).2

/-- The failure message (if any) the price-series adapter produces on
outcome `o`. -/
def priceFailureMsg (getHours : Rat → Int) (o : FetchOutcome) : Option String :=
  (fetchPriceDataTry getHours o initialState).2

/-- The failure message (if any) the sentiment adapter produces on outcome
`o`. -/
def sentimentFailureMsg (o : FetchOutcome) : Option String :=
  (fetchFearGreedIndexTry o initialState).2

theorem fetchLatestBlockInfo_error (o : FetchOutcome) (s : AggregateState) :
    (fetchLatestBlockInfo o s).1.error =
      match blockFailureMsg o with
      | some m => m
      | none => s.error := by
  rw [fetchLatestBlockInfo, runCatch_fst_error, blockFailureMsg,
    fetchLatestBlockInfoTry_snd_const o initialState s]
  cases (fetchLatestBlockInfoTry o s).2 with
  | none => exact (fetchLatestBlockInfoTry_frame o s).2.2.2.2
  | some m => rfl

theorem fetchBtcMetrics_error (o : FetchOutcome) (s : AggregateState) :
    (fetchBtcMetrics o s).1.error =
      match marketFailureMsg o with
      | some m => m
      | none => s.error := by
  rw [fetchBtcMetrics, runCatch_fst_error, marketFailureMsg,
    fetchBtcMetricsTry_snd_const o initialState s]
  cases (fetchBtcMetricsTry o s).2 with
  | none => exact (fetchBtcMetricsTry_frame o s).2.2.2.2
  | some m => rfl

theorem fetchPriceData_error (getHours : Rat → Int) (o : FetchOutcome)
    (s : AggregateState) :
    (fetchPriceData getHours o s).1.error =
      match priceFailureMsg getHours o with
      | some m => m
      | none => s.error := by
  rw [fetchPriceData, runCatch_fst_error, priceFailureMsg,
    fetchPriceDataTry_snd_const getHours o initialState s]
  cases (fetchPriceDataTry getHours o s).2 with
  | none => exact (fetchPriceDataTry_frame getHours o s).2.2.2.2.2
  | some m => rfl

theorem fetchFearGreedIndex_error (o : FetchOutcome) (s : AggregateState) :
    (fetchFearGreedIndex o s).1.error =
      match sentimentFailureMsg o with
      | some m => m
      | none => s.error := by
  rw [fetchFearGreedIndex, runCatch_fst_error, sentimentFailureMsg,
    fetchFearGreedIndexTry_snd_const o initialState s]
  cases (fetchFearGreedIndexTry o s).2 with
  | none => exact (fetchFearGreedIndexTry_frame o s).2.2.2.2.2
  | some m => rfl

/-- The wrapped block-info adapter leaves the other adapters' fields
untouched. -/
theorem fetchLatestBlockInfo_frame (o : FetchOutcome) (s : AggregateState) :
    (fetchLatestBlockInfo o s).1.btcPrice = s.btcPrice ∧
    (fetchLatestBlockInfo o s).1.btcMetrics = s.btcMetrics ∧
    (fetchLatestBlockInfo o s).1.priceData = s.priceData ∧
    (fetchLatestBlockInfo o s).1.fearGreedIndex = s.fearGreedIndex := by
  have h := runCatch_fst_data (fetchLatestBlockInfoTry o) s
  have h2 := fetchLatestBlockInfoTry_frame o s
  exact ⟨h.2.2.1.trans h2.1, h.2.2.2.1.trans h2.2.1,
    h.2.2.2.2.1.trans h2.2.2.1, h.2.2.2.2.2.trans h2.2.2.2.1⟩

/-- The wrapped market adapter leaves the other adapters' fields
untouched. -/
theorem fetchBtcMetrics_frame (o : FetchOutcome) (s : AggregateState) :
    (fetchBtcMetrics o s).1.blockInfo = s.blockInfo ∧
    (fetchBtcMetrics o s).1.blockHeight = s.blockHeight ∧
    (fetchBtcMetrics o s).1.priceData = s.priceData ∧
    (fetchBtcMetrics o s).1.fearGreedIndex = s.fearGreedIndex := by
  have h := runCatch_fst_data (fetchBtcMetricsTry o) s
  have h2 := fetchBtcMetricsTry_frame o s
  exact ⟨h.1.trans h2.1, h.2.1.trans h2.2.1,
    h.2.2.2.2.1.trans h2.2.2.1, h.2.2.2.2.2.trans h2.2.2.2.1⟩

/-- The wrapped price-series adapter leaves the other adapters' fields
untouched. -/
theorem fetchPriceData_frame (getHours : Rat → Int) (o : FetchOutcome)
    (s : AggregateState) :
    (fetchPriceData getHours o s).1.blockInfo = s.blockInfo ∧
    (fetchPriceData getHours o s).1.blockHeight = s.blockHeight ∧
    (fetchPriceData getHours o s).1.btcPrice = s.btcPrice ∧
    (fetchPriceData getHours o s).1.btcMetrics = s.btcMetrics ∧
    (fetchPriceData getHours o s).1.fearGreedIndex = s.fearGreedIndex := by
  have h := runCatch_fst_data (fetchPriceDataTry getHours o) s
  have h2 := fetchPriceDataTry_frame getHours o s
  exact ⟨h.1.trans h2.1, h.2.1.trans h2.2.1, h.2.2.1.trans h2.2.2.1,
    h.2.2.2.1.trans h2.2.2.2.1, h.2.2.2.2.2.trans h2.2.2.2.2.1⟩

/-- The wrapped sentiment adapter leaves the other adapters' fields
untouched. -/
theorem fetchFearGreedIndex_frame (o : FetchOutcome) (s : AggregateState) :
    (fetchFearGreedIndex o s).1.blockInfo = s.blockInfo ∧
    (fetchFearGreedIndex o s).1.blockHeight = s.blockHeight ∧
    (fetchFearGreedIndex o s).1.btcPrice = s.btcPrice ∧
    (fetchFearGreedIndex o s).1.btcMetrics = s.btcMetrics ∧
    (fetchFearGreedIndex o s).1.priceData = s.priceData := by
  have h := runCatch_fst_data (fetchFearGreedIndexTry o) s
  have h2 := fetchFearGreedIndexTry_frame o s
  exact ⟨h.1.trans h2.1, h.2.1.trans h2.2.1, h.2.2.1.trans h2.2.2.1,
    h.2.2.2.1.trans h2.2.2.2.1, h.2.2.2.2.1.trans h2.2.2.2.2.1⟩

theorem fetchLatestBlockInfo_snd (o : FetchOutcome) (s : AggregateState) :
    (fetchLatestBlockInfo o s).2 = none :=
  runCatch_snd _ _

theorem fetchBtcMetrics_snd (o : FetchOutcome) (s : AggregateState) :
    (fetchBtcMetrics o s).2 = none :=
  runCatch_snd _ _

theorem fetchPriceData_snd (getHours : Rat → Int) (o : FetchOutcome)
    (s : AggregateState) : (fetchPriceData getHours o s).2 = none :=
  runCatch_snd _ _

theorem fetchFearGreedIndex_snd (o : FetchOutcome) (s : AggregateState) :
    (fetchFearGreedIndex o s).2 = none :=
  runCatch_snd _ _

/-- The block fields the block-info try body leaves behind agree for any two
starting states that agreed on them. -/
theorem fetchLatestBlockInfoTry_own_congr (o : FetchOutcome)
    (s t : AggregateState) (hh : s.blockHeight = t.blockHeight)
    (hi : s.blockInfo = t.blockInfo) :
    (fetchLatestBlockInfoTry o s).1.blockHeight =
      (fetchLatestBlockInfoTry o t).1.blockHeight ∧
    (fetchLatestBlockInfoTry o s).1.blockInfo =
      (fetchLatestBlockInfoTry o t).1.blockInfo := by
  cases o with
  | reject m => exact ⟨hh, hi⟩
  | resp ok body =>
    simp only [fetchLatestBlockInfoTry]
    repeat' split
    all_goals first
      | exact ⟨hh, hi⟩
      | exact ⟨rfl, rfl⟩

/-- The market fields the market try body leaves behind agree for any two
starting states that agreed on them. -/
theorem fetchBtcMetricsTry_own_congr (o : FetchOutcome)
    (s t : AggregateState) (hp : s.btcPrice = t.btcPrice)
    (hm : s.btcMetrics = t.btcMetrics) :
    (fetchBtcMetricsTry o s).1.btcPrice =
      (fetchBtcMetricsTry o t).1.btcPrice ∧
    (fetchBtcMetricsTry o s).1.btcMetrics =
      (fetchBtcMetricsTry o t).1.btcMetrics := by
  cases o with
  | reject m => exact ⟨hp, hm⟩
  | resp ok body =>
    simp only [fetchBtcMetricsTry]
    repeat' split
    all_goals first
      | exact ⟨hp, hm⟩
      | exact ⟨rfl, hm⟩
      | exact ⟨rfl, rfl⟩

/-- The price-series field the price try body leaves behind agrees for any
two starting states that agreed on it. -/
theorem fetchPriceDataTry_own_congr (getHours : Rat → Int) (o : FetchOutcome)
    (s t : AggregateState) (hp : s.priceData = t.priceData) :
    (fetchPriceDataTry getHours o s).1.priceData =
      (fetchPriceDataTry getHours o t).1.priceData := by
  cases o with
  | reject m => exact hp
  | resp ok body =>
    simp only [fetchPriceDataTry]
    repeat' split
    all_goals first
      | exact hp
      | rfl

/-- The sentiment field the sentiment try body leaves behind agrees for any
two starting states that agreed on it. -/
theorem fetchFearGreedIndexTry_own_congr (o : FetchOutcome)
    (s t : AggregateState) (hf : s.fearGreedIndex = t.fearGreedIndex) :
    (fetchFearGreedIndexTry o s).1.fearGreedIndex =
      (fetchFearGreedIndexTry o t).1.fearGreedIndex := by
  cases o with
  | reject m => exact hf
  | resp ok body =>
    simp only [fetchFearGreedIndexTry]
    repeat' split
    all_goals first
      | exact hf
      | rfl

theorem fetchBtcMetrics_own_congr (o : FetchOutcome) (s t : AggregateState)
    (hp : s.btcPrice = t.btcPrice) (hm : s.btcMetrics = t.btcMetrics) :
    (fetchBtcMetrics o s).1.btcPrice = (fetchBtcMetrics o t).1.btcPrice ∧
    (fetchBtcMetrics o s).1.btcMetrics = (fetchBtcMetrics o t).1.btcMetrics := by
  have hs := runCatch_fst_data (fetchBtcMetricsTry o) s
  have ht := runCatch_fst_data (fetchBtcMetricsTry o) t
  have h := fetchBtcMetricsTry_own_congr o s t hp hm
  exact ⟨(hs.2.2.1.trans h.1).trans ht.2.2.1.symm,
    (hs.2.2.2.1.trans h.2).trans ht.2.2.2.1.symm⟩

theorem fetchPriceData_own_congr (getHours : Rat → Int) (o : FetchOutcome)
    (s t : AggregateState) (hp : s.priceData = t.priceData) :
    (fetchPriceData getHours o s).1.priceData =
      (fetchPriceData getHours o t).1.priceData := by
  have hs := runCatch_fst_data (fetchPriceDataTry getHours o) s
  have ht := runCatch_fst_data (fetchPriceDataTry getHours o) t
  have h := fetchPriceDataTry_own_congr getHours o s t hp
  exact (hs.2.2.2.2.1.trans h).trans ht.2.2.2.2.1.symm

theorem fetchFearGreedIndex_own_congr (o : FetchOutcome)
    (s t : AggregateState) (hf : s.fearGreedIndex = t.fearGreedIndex) :
    (fetchFearGreedIndex o s).1.fearGreedIndex =
      (fetchFearGreedIndex o t).1.fearGreedIndex := by
  have hs := runCatch_fst_data (fetchFearGreedIndexTry o) s
  have ht := runCatch_fst_data (fetchFearGreedIndexTry o) t
  have h := fetchFearGreedIndexTry_own_congr o s t hf
  exact (hs.2.2.2.2.2.trans h).trans ht.2.2.2.2.2.symm

/-- "Last failure wins": the error message left after recording each message
of the list in order over a previous message `old`. -/
def lastWins (old : String) (es : List (Option String)) : String :=
  es.foldl (fun acc e =>
    match e with
    | some m => m
    | none => acc) old

theorem fetchLatestData_snd (getHours : Rat → Int) (o1 o2 o3 o4 : FetchOutcome)
    (s : AggregateState) : (fetchLatestData getHours o1 o2 o3 o4 s).2 = none := by
  simp only [fetchLatestData, fetchLatestBlockInfo_snd, fetchBtcMetrics_snd,
    fetchPriceData_snd, fetchFearGreedIndex_snd]
  rfl

theorem fetchLatestData_error (getHours : Rat → Int) (o1 o2 o3 o4 : FetchOutcome)
    (s : AggregateState) :
    (fetchLatestData getHours o1 o2 o3 o4 s).1.error =
      lastWins s.error [blockFailureMsg o1, marketFailureMsg o2,
        priceFailureMsg getHours o3, sentimentFailureMsg o4] := by
  simp only [fetchLatestData]
  rw [fetchFearGreedIndex_error, fetchPriceData_error, fetchBtcMetrics_error,
    fetchLatestBlockInfo_error]
  cases blockFailureMsg o1 <;> cases marketFailureMsg o2 <;>
    cases priceFailureMsg getHours o3 <;> cases sentimentFailureMsg o4 <;> rfl

/-- The sequential cycle of the second source file and the `Promise.all`
cycle of `src/App.js` compute the same result: since every adapter swallows
its own failures, no awaited promise ever rejects, the outer catch of the
sequential version is dead code, and both versions reduce to the in-order
application of the four adapters. -/
theorem fetchLatestDataSeq_eq (getHours : Rat → Int) (o1 o2 o3 o4 : FetchOutcome)
    (s : AggregateState) :
    fetchLatestDataSeq getHours o1 o2 o3 o4 s =
      fetchLatestData getHours o1 o2 o3 o4 s := by
  simp only [fetchLatestDataSeq, fetchLatestData, runCatch,
    fetchLatestBlockInfo_snd, fetchBtcMetrics_snd, fetchPriceData_snd,
    fetchFearGreedIndex_snd]
  rfl

/-- Each data field after a cycle equals that field after running the owning
adapter alone on the pre-cycle state: the four adapters write disjoint
fields, so each one's contribution is independent of its siblings'
outcomes. -/
theorem fetchLatestData_fields (getHours : Rat → Int) (o1 o2 o3 o4 : FetchOutcome)
    (s : AggregateState) :
    (fetchLatestData getHours o1 o2 o3 o4 s).1.blockHeight =
      (fetchLatestBlockInfo o1 s).1.blockHeight ∧
    (fetchLatestData getHours o1 o2 o3 o4 s).1.blockInfo =
      (fetchLatestBlockInfo o1 s).1.blockInfo ∧
    (fetchLatestData getHours o1 o2 o3 o4 s).1.btcPrice =
      (fetchBtcMetrics o2 s).1.btcPrice ∧
    (fetchLatestData getHours o1 o2 o3 o4 s).1.btcMetrics =
      (fetchBtcMetrics o2 s).1.btcMetrics ∧
    (fetchLatestData getHours o1 o2 o3 o4 s).1.priceData =
      (fetchPriceData getHours o3 s).1.priceData ∧
    (fetchLatestData getHours o1 o2 o3 o4 s).1.fearGreedIndex =
      (fetchFearGreedIndex o4 s).1.fearGreedIndex := by
  have hb := fetchLatestBlockInfo_frame o1 s
  have hm := fetchBtcMetrics_frame o2 (fetchLatestBlockInfo o1 s).1
  have hp := fetchPriceData_frame getHours o3
    (fetchBtcMetrics o2 (fetchLatestBlockInfo o1 s).1).1
  have hf := fetchFearGreedIndex_frame o4
    (fetchPriceData getHours o3
      (fetchBtcMetrics o2 (fetchLatestBlockInfo o1 s).1).1).1
  refine ⟨?_, ?_, ?_, ?_, ?_, ?_⟩
  · exact (hf.2.1.trans hp.2.1).trans hm.2.1
  · exact (hf.1.trans hp.1).trans hm.1
  · exact (hf.2.2.1.trans hp.2.2.1).trans
      (fetchBtcMetrics_own_congr o2 (fetchLatestBlockInfo o1 s).1 s
        hb.1 hb.2.1).1
  · exact (hf.2.2.2.1.trans hp.2.2.2.1).trans
      (fetchBtcMetrics_own_congr o2 (fetchLatestBlockInfo o1 s).1 s
        hb.1 hb.2.1).2
  · exact hf.2.2.2.2.trans
      (fetchPriceData_own_congr getHours o3
        (fetchBtcMetrics o2 (fetchLatestBlockInfo o1 s).1).1 s
        (hm.2.2.1.trans hb.2.2.1))
  · exact fetchFearGreedIndex_own_congr o4
      (fetchPriceData getHours o3
        (fetchBtcMetrics o2 (fetchLatestBlockInfo o1 s).1).1).1 s
      ((hp.2.2.2.2.trans hm.2.2.2).trans hb.2.2.2)

/-! ### Concrete fixtures used by witnesses and counterexamples -/

/-- A fixed local-hour function for concrete evaluations (the scenario is
independent of the platform's timezone conversion). -/
def hourFn0 : Rat → Int := fun _ => 0

/-- A block API response with one well-formed latest block. -/
def okBlockOutcome : FetchOutcome :=
  .resp true (.ok (.obj [("data", .arr [.obj
    [("id", .num 820000), ("hash", .str "00000ab"), ("size", .num 1400000),
     ("difficulty", .num 60000000000000), ("weight", .num 3990000)]])]))

/-- A market API response with all expected fields present. -/
def okMarketOutcome : FetchOutcome :=
  .resp true (.ok (.obj [("market_data", .obj
    [("current_price", .obj [("usd", .num 42000)]),
     ("market_cap", .obj [("usd", .num 800000000000)]),
     ("total_volume", .obj [("usd", .num 30000000000)]),
     ("price_change_percentage_24h", .num 1),
     ("price_change_percentage_7d", .num 2)])]))

/-- A market API response whose `market_data` lacks `total_volume`. -/
def marketMissingVolumeOutcome : FetchOutcome :=
  .resp true (.ok (.obj [("market_data", .obj
    [("current_price", .obj [("usd", .num 42000)]),
     ("market_cap", .obj [("usd", .num 800000000000)]),
     ("price_change_percentage_24h", .num 1),
     ("price_change_percentage_7d", .num 2)])]))

/-- A price-chart API response with a single price point. -/
def okPriceOutcome : FetchOutcome :=
  .resp true (.ok (.obj [("prices", .arr [.arr [.num 0, .num 100]])]))

/-- A sentiment API response with a well-formed index reading. -/
def okSentimentOutcome : FetchOutcome :=
  .resp true (.ok (.obj [("data", .arr [.obj
    [("value", .num 50), ("value_classification", .str "Neutral")]])]))

/-- A sentiment API response whose value is out of range and whose
classification is not one of the five known ones. -/
def oddSentimentOutcome : FetchOutcome :=
  .resp true (.ok (.obj [("data", .arr [.obj
    [("value", .num 500), ("value_classification", .str "Confused")]])]))

/-- A state with market data already populated from an earlier cycle. -/
def priorState : AggregateState :=
  { btcPrice := some (.num 10),
    btcMetrics := some ⟨.num 1, .num 2, .num 3, .num 4⟩ }

/-! ### The claims -/

/-- C1: For every cycle and every adapter, if that adapter's fetch fails
(network failure, non-2xx status, JSON-parse failure, or missing expected
field), the fields of `AggregateState` belonging to the other three adapters
keep exactly the values they had before the cycle's merge of that failure: a
failing adapter never clears, overwrites, or corrupts any other adapter's
last-good value. -/
theorem claim_C1_failure_isolation (getHours : Rat → Int) (o : FetchOutcome)
    (s : AggregateState) :
    (∀ m, blockFailureMsg o = some m →
      (fetchLatestBlockInfo o s).1.btcPrice = s.btcPrice ∧
      (fetchLatestBlockInfo o s).1.btcMetrics = s.btcMetrics ∧
      (fetchLatestBlockInfo o s).1.priceData = s.priceData ∧
      (fetchLatestBlockInfo o s).1.fearGreedIndex = s.fearGreedIndex) ∧
    (∀ m, marketFailureMsg o = some m →
      (fetchBtcMetrics o s).1.blockHeight = s.blockHeight ∧
      (fetchBtcMetrics o s).1.blockInfo = s.blockInfo ∧
      (fetchBtcMetrics o s).1.priceData = s.priceData ∧
      (fetchBtcMetrics o s).1.fearGreedIndex = s.fearGreedIndex) ∧
    (∀ m, priceFailureMsg getHours o = some m →
      (fetchPriceData getHours o s).1.blockHeight = s.blockHeight ∧
      (fetchPriceData getHours o s).1.blockInfo = s.blockInfo ∧
      (fetchPriceData getHours o s).1.btcPrice = s.btcPrice ∧
      (fetchPriceData getHours o s).1.btcMetrics = s.btcMetrics ∧
      (fetchPriceData getHours o s).1.fearGreedIndex = s.fearGreedIndex) ∧
    (∀ m, sentimentFailureMsg o = some m →
      (fetchFearGreedIndex o s).1.blockHeight = s.blockHeight ∧
      (fetchFearGreedIndex o s).1.blockInfo = s.blockInfo ∧
      (fetchFearGreedIndex o s).1.btcPrice = s.btcPrice ∧
      (fetchFearGreedIndex o s).1.btcMetrics = s.btcMetrics ∧
      (fetchFearGreedIndex o s).1.priceData = s.priceData) := by
  have hb := fetchLatestBlockInfo_frame o s
  have hm := fetchBtcMetrics_frame o s
  have hp := fetchPriceData_frame getHours o s
  have hf := fetchFearGreedIndex_frame o s
  exact ⟨fun _ _ => ⟨hb.1, hb.2.1, hb.2.2.1, hb.2.2.2⟩,
    fun _ _ => ⟨hm.2.1, hm.1, hm.2.2.1, hm.2.2.2⟩,
    fun _ _ => ⟨hp.2.1, hp.1, hp.2.2.1, hp.2.2.2.1, hp.2.2.2.2⟩,
    fun _ _ => ⟨hf.2.1, hf.1, hf.2.2.1, hf.2.2.2.1, hf.2.2.2.2⟩⟩

/-- Witness for C1: a concrete network failure of the block adapter against
a populated state leaves the market fields untouched. -/
theorem claim_C1_failure_isolation_witness :
    blockFailureMsg (.reject "network down") = some "network down" ∧
    ((fetchLatestBlockInfo (.reject "network down") priorState).1.btcPrice =
        priorState.btcPrice ∧
      (fetchLatestBlockInfo (.reject "network down") priorState).1.btcMetrics =
        priorState.btcMetrics ∧
      (fetchLatestBlockInfo (.reject "network down") priorState).1.priceData =
        priorState.priceData ∧
      (fetchLatestBlockInfo (.reject "network down") priorState).1.fearGreedIndex =
        priorState.fearGreedIndex) :=
  ⟨rfl, (claim_C1_failure_isolation hourFn0 (.reject "network down")
    priorState).1 "network down" rfl⟩

/-- C2: For every cycle and every combination of per-adapter outcomes,
`fetchLatestData` never raises past its own boundary: the `Promise.all`
promise always resolves (never rejects), every adapter failure is caught and
lands only in the recorded error-message field, and the cycle always yields
a (possibly partially updated) `AggregateState`. -/
theorem claim_C2_no_escape (getHours : Rat → Int) (o1 o2 o3 o4 : FetchOutcome)
    (s : AggregateState) :
    (fetchLatestData getHours o1 o2 o3 o4 s).2 = none ∧
    (fetchLatestData getHours o1 o2 o3 o4 s).1.error =
      lastWins s.error [blockFailureMsg o1, marketFailureMsg o2,
        priceFailureMsg getHours o3, sentimentFailureMsg o4] :=
  ⟨fetchLatestData_snd getHours o1 o2 o3 o4 s,
    fetchLatestData_error getHours o1 o2 o3 o4 s⟩

/-- C9: Within every cycle the four adapters form a fan-out/fan-in join:
the cycle settles for every combination of per-adapter outcomes (the join
never rejects), and each adapter's fields in the final state are exactly
those produced by running that adapter alone on the pre-cycle state — no
adapter's contribution depends on, or is cancelled by, a sibling's
failure. -/
theorem claim_C9_fan_out_fan_in (getHours : Rat → Int)
    (o1 o2 o3 o4 : FetchOutcome) (s : AggregateState) :
    (fetchLatestData getHours o1 o2 o3 o4 s).2 = none ∧
    (fetchLatestData getHours o1 o2 o3 o4 s).1.blockHeight =
      (fetchLatestBlockInfo o1 s).1.blockHeight ∧
    (fetchLatestData getHours o1 o2 o3 o4 s).1.blockInfo =
      (fetchLatestBlockInfo o1 s).1.blockInfo ∧
    (fetchLatestData getHours o1 o2 o3 o4 s).1.btcPrice =
      (fetchBtcMetrics o2 s).1.btcPrice ∧
    (fetchLatestData getHours o1 o2 o3 o4 s).1.btcMetrics =
      (fetchBtcMetrics o2 s).1.btcMetrics ∧
    (fetchLatestData getHours o1 o2 o3 o4 s).1.priceData =
      (fetchPriceData getHours o3 s).1.priceData ∧
    (fetchLatestData getHours o1 o2 o3 o4 s).1.fearGreedIndex =
      (fetchFearGreedIndex o4 s).1.fearGreedIndex :=
  ⟨fetchLatestData_snd getHours o1 o2 o3 o4 s,
    fetchLatestData_fields getHours o1 o2 o3 o4 s⟩

/-- C10: For every fixed assignment of per-adapter outcomes, the sequential
`fetchLatestData` of the second source file and the `Promise.all`-based
`fetchLatestData` of `src/App.js` leave the four snapshot field groups
(block info/height, market metrics/price, price series, sentiment) with
identical final values. -/
theorem claim_C10_seq_par_equivalence (getHours : Rat → Int)
    (o1 o2 o3 o4 : FetchOutcome) (s : AggregateState) :
    (fetchLatestDataSeq getHours o1 o2 o3 o4 s).1.blockHeight =
      (fetchLatestData getHours o1 o2 o3 o4 s).1.blockHeight ∧
    (fetchLatestDataSeq getHours o1 o2 o3 o4 s).1.blockInfo =
      (fetchLatestData getHours o1 o2 o3 o4 s).1.blockInfo ∧
    (fetchLatestDataSeq getHours o1 o2 o3 o4 s).1.btcPrice =
      (fetchLatestData getHours o1 o2 o3 o4 s).1.btcPrice ∧
    (fetchLatestDataSeq getHours o1 o2 o3 o4 s).1.btcMetrics =
      (fetchLatestData getHours o1 o2 o3 o4 s).1.btcMetrics ∧
    (fetchLatestDataSeq getHours o1 o2 o3 o4 s).1.priceData =
      (fetchLatestData getHours o1 o2 o3 o4 s).1.priceData ∧
    (fetchLatestDataSeq getHours o1 o2 o3 o4 s).1.fearGreedIndex =
      (fetchLatestData getHours o1 o2 o3 o4 s).1.fearGreedIndex := by
  rw [fetchLatestDataSeq_eq]
  exact ⟨rfl, rfl, rfl, rfl, rfl, rfl⟩

/-- Counterexample to C3: nothing ever clears the error field.  Run one
cycle in which only the sentiment adapter fails (message `boom`), then a
second cycle in which all four adapters succeed: the error field still reads
`boom`, a leftover from the earlier cycle, and is what the user sees (the
component renders the error whenever it is a non-empty string). -/
theorem claim_C3_counterexample :
    blockFailureMsg okBlockOutcome = none ∧
    marketFailureMsg okMarketOutcome = none ∧
    priceFailureMsg hourFn0 okPriceOutcome = none ∧
    sentimentFailureMsg okSentimentOutcome = none ∧
    (fetchLatestData hourFn0 okBlockOutcome okMarketOutcome okPriceOutcome
        (.reject "boom") initialState).1.error = "boom" ∧
    (fetchLatestData hourFn0 okBlockOutcome okMarketOutcome okPriceOutcome
        okSentimentOutcome
        (fetchLatestData hourFn0 okBlockOutcome okMarketOutcome okPriceOutcome
          (.reject "boom") initialState).1).1.error = "boom" ∧
    "boom" ≠ "" :=
  ⟨rfl, rfl, rfl, rfl, rfl, rfl, by decide⟩

/-- C3 as amended: within one cycle the error field holds the message of the
last failure in adapter order, with no accumulation; but an all-success
cycle merely leaves the error field unchanged — the error is never cleared,
so a stale failure message from an earlier cycle remains displayed. -/
theorem claim_C3_error_policy (getHours : Rat → Int)
    (o1 o2 o3 o4 : FetchOutcome) (s : AggregateState) :
    (fetchLatestData getHours o1 o2 o3 o4 s).1.error =
      lastWins s.error [blockFailureMsg o1, marketFailureMsg o2,
        priceFailureMsg getHours o3, sentimentFailureMsg o4] ∧
    (blockFailureMsg o1 = none → marketFailureMsg o2 = none →
      priceFailureMsg getHours o3 = none → sentimentFailureMsg o4 = none →
      (fetchLatestData getHours o1 o2 o3 o4 s).1.error = s.error) := by
  refine ⟨fetchLatestData_error getHours o1 o2 o3 o4 s, ?_⟩
  intro h1 h2 h3 h4
  rw [fetchLatestData_error, h1, h2, h3, h4]
  rfl

/-- Witness for C3 (amended): a concrete all-success cycle over a populated
state retains the previous error message verbatim. -/
theorem claim_C3_error_policy_witness :
    blockFailureMsg okBlockOutcome = none ∧
    marketFailureMsg okMarketOutcome = none ∧
    priceFailureMsg hourFn0 okPriceOutcome = none ∧
    sentimentFailureMsg okSentimentOutcome = none ∧
    (fetchLatestData hourFn0 okBlockOutcome okMarketOutcome okPriceOutcome
        okSentimentOutcome priorState).1.error = priorState.error :=
  ⟨rfl, rfl, rfl, rfl,
    (claim_C3_error_policy hourFn0 okBlockOutcome okMarketOutcome
      okPriceOutcome okSentimentOutcome priorState).2 rfl rfl rfl rfl⟩

/-- C6: the sentiment classification-to-glyph mapping is total: each of the
five known classifications maps to a non-empty glyph, the five glyphs are
pairwise distinct, and every other string maps to the empty glyph. -/
theorem claim_C6_emoji_mapping :
    (getEmojiForClassification "Extreme Fear" = "🙀" ∧
      getEmojiForClassification "Fear" = "😨" ∧
      getEmojiForClassification "Neutral" = "😐" ∧
      getEmojiForClassification "Greed" = "🤑" ∧
      getEmojiForClassification "Extreme Greed" = "😈") ∧
    ("🙀" ≠ "" ∧ "😨" ≠ "" ∧ "😐" ≠ "" ∧ "🤑" ≠ "" ∧ "😈" ≠ "") ∧
    ("🙀" ≠ "😨" ∧ "🙀" ≠ "😐" ∧ "🙀" ≠ "🤑" ∧ "🙀" ≠ "😈" ∧
      "😨" ≠ "😐" ∧ "😨" ≠ "🤑" ∧ "😨" ≠ "😈" ∧
      "😐" ≠ "🤑" ∧ "😐" ≠ "😈" ∧ "🤑" ≠ "😈") ∧
    (∀ s : String, s ≠ "Extreme Fear" → s ≠ "Fear" → s ≠ "Neutral" →
      s ≠ "Greed" → s ≠ "Extreme Greed" →
      getEmojiForClassification s = "") := by
  refine ⟨⟨rfl, rfl, rfl, rfl, rfl⟩, by decide, by decide, ?_⟩
  intro s h1 h2 h3 h4 h5
  simp [getEmojiForClassification, h1, h2, h3, h4, h5]

/-- Witness for C6: a concrete unknown classification maps to the empty
glyph. -/
theorem claim_C6_emoji_mapping_witness :
    "Bogus" ≠ "Extreme Fear" ∧ "Bogus" ≠ "Fear" ∧ "Bogus" ≠ "Neutral" ∧
    "Bogus" ≠ "Greed" ∧ "Bogus" ≠ "Extreme Greed" ∧
    getEmojiForClassification "Bogus" = "" :=
  ⟨by decide, by decide, by decide, by decide, by decide,
    claim_C6_emoji_mapping.2.2.2 "Bogus" (by decide) (by decide) (by decide)
      (by decide) (by decide)⟩

theorem exceptBind_ok {ε α β : Type} (a : α) (f : α → Except ε β) :
    ((Except.ok a : Except ε α) >>= f) = f a := rfl

theorem exceptBind_error {ε α β : Type} (e : ε) (f : α → Except ε β) :
    ((Except.error e : Except ε α) >>= f) = Except.error e := rfl

theorem exceptPure {ε α : Type} (a : α) :
    (pure a : Except ε α) = Except.ok a := rfl

/-- Counterexample to C4: when the market payload carries
`market_data.current_price` but lacks `market_data.total_volume`, the
adapter fails — yet `btcPrice` has already been overwritten with the
fetched price before the failure, so the market portion of the state does
not remain at its prior value. -/
theorem claim_C4_counterexample :
    marketFailureMsg marketMissingVolumeOutcome =
      some (propReadError "undefined" "usd") ∧
    priorState.btcPrice = some (.num 10) ∧
    (fetchBtcMetrics marketMissingVolumeOutcome priorState).1.btcPrice =
      some (.num 42000) ∧
    (fetchBtcMetrics marketMissingVolumeOutcome priorState).1.btcPrice ≠
      priorState.btcPrice ∧
    (fetchBtcMetrics marketMissingVolumeOutcome priorState).1.btcMetrics =
      priorState.btcMetrics ∧
    (fetchBtcMetrics marketMissingVolumeOutcome priorState).1.error =
      propReadError "undefined" "usd" := by
  refine ⟨rfl, rfl, rfl, ?_, rfl, rfl⟩
  show some (JsVal.num 42000) ≠ some (JsVal.num 10)
  simp only [ne_eq, Option.some.injEq, JsVal.num.injEq]
  norm_num

/-- C4 as amended: for every cycle in which the market payload's
`market_data` carries `current_price` (and `market_cap`) but lacks
`total_volume`, the adapter raises a TypeError while building the metrics
object, so `btcMetrics` keeps its prior value and the error field is set to
the message of the failed `usd` read on the missing field — but `btcPrice`
has already been overwritten with the fetched current price. -/
theorem claim_C4_missing_volume (s : AggregateState)
    (fields mdf cpf mcf : List (String × JsVal)) (p mcv : JsVal)
    (hmd : lookupField fields "market_data" = .obj mdf)
    (hcp : lookupField mdf "current_price" = .obj cpf)
    (hp : lookupField cpf "usd" = p)
    (hmc : lookupField mdf "market_cap" = .obj mcf)
    (hmcv : lookupField mcf "usd" = mcv)
    (htv : lookupField mdf "total_volume" = .undefined) :
    fetchBtcMetrics (.resp true (.ok (.obj fields))) s =
      ({ s with btcPrice := some p,
                error := propReadError "undefined" "usd" }, none) := by
  simp only [fetchBtcMetrics, runCatch, fetchBtcMetricsTry, getField, hmd,
    hcp, hp, hmc, hmcv, htv, exceptBind_ok, exceptBind_error, exceptPure,
    Bool.not_true, Bool.false_eq_true, if_false]

/-- Witness for C4 (amended): the concrete volume-less market payload over a
populated state. -/
theorem claim_C4_missing_volume_witness :
    fetchBtcMetrics marketMissingVolumeOutcome priorState =
      ({ priorState with btcPrice := some (.num 42000),
                         error := propReadError "undefined" "usd" }, none) :=
  claim_C4_missing_volume priorState
    [("market_data", .obj
      [("current_price", .obj [("usd", .num 42000)]),
       ("market_cap", .obj [("usd", .num 800000000000)]),
       ("price_change_percentage_24h", .num 1),
       ("price_change_percentage_7d", .num 2)])]
    [("current_price", .obj [("usd", .num 42000)]),
     ("market_cap", .obj [("usd", .num 800000000000)]),
     ("price_change_percentage_24h", .num 1),
     ("price_change_percentage_7d", .num 2)]
    [("usd", .num 42000)] [("usd", .num 800000000000)]
    (.num 42000) (.num 800000000000) rfl rfl rfl rfl rfl rfl

/-- A well-formed raw price series embedded as the JSON array of
`[timestamp, price]` pairs the chart endpoint returns. -/
def rawSeries (pts : List (Rat × Rat)) : JsVal :=
  .arr (pts.map fun q => JsVal.arr [.num q.1, .num q.2])

theorem mapM_labels (getHours : Rat → Int) (pts : List (Rat × Rat)) :
    (pts.map fun q => JsVal.arr [.num q.1, .num q.2]).mapM
      (fun pt => do
        let t ← getIndex pt 0
        pure (jsHourLabel getHours t)) =
      Except.ok (pts.map fun q => toString (getHours q.1) ++ ":00") := by
  induction pts with
  | nil => rfl
  | cons q rest ih =>
    rw [List.map_cons, List.mapM_cons, ih]
    rfl

theorem mapM_values (pts : List (Rat × Rat)) :
    (pts.map fun q => JsVal.arr [.num q.1, .num q.2]).mapM
      (fun pt => getIndex pt 1) =
      Except.ok (pts.map fun q => JsVal.num q.2) := by
  induction pts with
  | nil => rfl
  | cons q rest ih =>
    rw [List.map_cons, List.mapM_cons, ih]
    rfl

/-- C5: for every raw price series of `(timestamp, price)` pairs of length
`L`, the price-series adapter stores labels and values that are, in original
chronological order, exactly the trailing 24 entries of the input (all `L`
entries when `L < 24`), the label of each point being the local hour string
`<H>:00` of its timestamp and the value being its price; the outputs have
length 24 when `L ≥ 24` and length `L` (all points, no padding) when
`L < 24`. -/
theorem claim_C5_price_series (getHours : Rat → Int) (pts : List (Rat × Rat))
    (s : AggregateState) :
    (fetchPriceData getHours
        (.resp true (.ok (.obj [("prices", rawSeries pts)]))) s).1.priceData =
      some { labels := (pts.drop (pts.length - 24)).map
               (fun q => toString (getHours q.1) ++ ":00")
             datasetLabel := "Bitcoin Price (USD)"
             data := (pts.drop (pts.length - 24)).map (fun q => JsVal.num q.2)
             borderColor := "rgba(75, 192, 192, 1)"
             backgroundColor := "rgba(75, 192, 192, 0.2)"
             fill := true } ∧
    (24 ≤ pts.length →
      ((pts.drop (pts.length - 24)).map
          (fun q => toString (getHours q.1) ++ ":00")).length = 24 ∧
      ((pts.drop (pts.length - 24)).map (fun q => JsVal.num q.2)).length = 24) ∧
    (pts.length < 24 →
      pts.drop (pts.length - 24) = pts ∧
      ((pts.drop (pts.length - 24)).map
          (fun q => toString (getHours q.1) ++ ":00")).length = pts.length ∧
      ((pts.drop (pts.length - 24)).map (fun q => JsVal.num q.2)).length =
        pts.length) := by
  have hpr : getField (JsVal.obj [("prices", rawSeries pts)]) "prices" =
      .ok (rawSeries pts) := rfl
  refine ⟨?_, ?_, ?_⟩
  · simp only [fetchPriceData, runCatch, fetchPriceDataTry]
    rw [hpr]
    simp only [rawSeries, mapM_labels, mapM_values, jsSliceNeg,
      List.length_map, List.map_drop, Bool.not_true, Bool.false_eq_true,
      if_false]
  · intro h
    constructor <;> simp only [List.length_map, List.length_drop] <;> omega
  · intro h
    refine ⟨?_, ?_, ?_⟩
    · have : pts.length - 24 = 0 := by omega
      rw [this, List.drop_zero]
    · simp only [List.length_map, List.length_drop]
      omega
    · simp only [List.length_map, List.length_drop]
      omega

/-- A concrete 25-point raw series for the C5 witness. -/
def witnessSeries : List (Rat × Rat) :=
  (List.range 25).map fun i => ((i : Rat), (i : Rat))

/-- Witness for C5: a 25-point series falls in the `L ≥ 24` branch and the
adapter's outputs have length exactly 24. -/
theorem claim_C5_price_series_witness :
    24 ≤ witnessSeries.length ∧
    ((witnessSeries.drop (witnessSeries.length - 24)).map
        (fun q => toString (hourFn0 q.1) ++ ":00")).length = 24 ∧
    ((witnessSeries.drop (witnessSeries.length - 24)).map
        (fun q => JsVal.num q.2)).length = 24 := by
  have h24 : 24 ≤ witnessSeries.length := by decide
  exact ⟨h24, (claim_C5_price_series hourFn0 witnessSeries initialState).2.1 h24⟩

/-- The five classification strings of the sentiment API enumerated by the
spec. -/
def sentimentClassifications : List String :=
  ["Extreme Fear", "Fear", "Neutral", "Greed", "Extreme Greed"]

/-- The spec's range constraint on a sentiment value: an integer 0–100. -/
def isValidSentimentValue (v : JsVal) : Prop :=
  ∃ n : ℕ, n ≤ 100 ∧ v = .num n

/-- The spec's enum constraint on a sentiment classification. -/
def isValidClassification (c : JsVal) : Prop :=
  ∃ name ∈ sentimentClassifications, c = .str name

/-- Counterexample to C7: the sentiment adapter performs no validation, so a
payload carrying value 500 and classification `Confused` yields a successful
run whose stored snapshot violates both the 0–100 range and the
five-classification enum. -/
theorem claim_C7_counterexample :
    sentimentFailureMsg oddSentimentOutcome = none ∧
    (fetchFearGreedIndex oddSentimentOutcome initialState).1.fearGreedIndex =
      some ⟨.num 500, .str "Confused"⟩ ∧
    ¬ isValidSentimentValue (.num 500) ∧
    ¬ isValidClassification (.str "Confused") := by
  refine ⟨rfl, rfl, ?_, ?_⟩
  · rintro ⟨n, hn, he⟩
    injection he with h5
    have hn500 : n = 500 := by exact_mod_cast h5.symm
    omega
  · rintro ⟨nm, hmem, he⟩
    injection he with hnm
    rw [← hnm] at hmem
    exact absurd hmem (by decide)

/-- C7 as amended: the sentiment adapter copies `value` and
`value_classification` verbatim from the payload's first data item, with no
validation; consequently the stored snapshot satisfies the spec's range and
enum constraints exactly when the payload's fields already do. -/
theorem claim_C7_sentiment_verbatim (s : AggregateState) (rest : List JsVal)
    (itemFields : List (String × JsVal)) (v c : JsVal)
    (hv : lookupField itemFields "value" = v)
    (hc : lookupField itemFields "value_classification" = c) :
    (fetchFearGreedIndex
        (.resp true (.ok (.obj [("data", .arr (.obj itemFields :: rest))])))
        s).1.fearGreedIndex = some ⟨v, c⟩ ∧
    ((∃ r, (fetchFearGreedIndex
          (.resp true (.ok (.obj [("data", .arr (.obj itemFields :: rest))])))
          s).1.fearGreedIndex = some r ∧
        isValidSentimentValue r.value ∧ isValidClassification r.classification)
      ↔ (isValidSentimentValue v ∧ isValidClassification c)) := by
  have h1 : (fetchFearGreedIndex
      (.resp true (.ok (.obj [("data", .arr (.obj itemFields :: rest))])))
      s).1.fearGreedIndex = some ⟨v, c⟩ := by
    rw [← hv, ← hc]
    rfl
  refine ⟨h1, ?_⟩
  constructor
  · rintro ⟨r, hr, h2, h3⟩
    rw [h1] at hr
    obtain rfl : r = ⟨v, c⟩ := (Option.some.inj hr).symm
    exact ⟨h2, h3⟩
  · rintro ⟨h2, h3⟩
    exact ⟨⟨v, c⟩, h1, h2, h3⟩

/-- Witness for C7 (amended): a concrete well-formed sentiment payload is
stored verbatim. -/
theorem claim_C7_sentiment_verbatim_witness :
    lookupField [("value", JsVal.num 50),
      ("value_classification", JsVal.str "Neutral")] "value" = .num 50 ∧
    lookupField [("value", JsVal.num 50),
      ("value_classification", JsVal.str "Neutral")] "value_classification" =
      .str "Neutral" ∧
    (fetchFearGreedIndex okSentimentOutcome initialState).1.fearGreedIndex =
      some ⟨.num 50, .str "Neutral"⟩ :=
  ⟨rfl, rfl,
    (claim_C7_sentiment_verbatim initialState []
      [("value", JsVal.num 50), ("value_classification", JsVal.str "Neutral")]
      (.num 50) (.str "Neutral") rfl rfl).1⟩

/-- C8: under the modelled timer semantics, the scheduler invokes the cycle
callback exactly once immediately at start (time 0), again at each positive
multiple of `intervalMs` reached before `stop()` is called at `stopAt`, at
no other times, and never at or after `stopAt`; the interval configured in
the source is 60000 ms. -/
theorem claim_C8_scheduler (intervalMs stopAt : ℕ) (hint : 0 < intervalMs)
    (hstop : 0 < stopAt) :
    refreshIntervalMs = 60000 ∧
    schedulerInvokedAt intervalMs stopAt 0 = true ∧
    (∀ k, 1 ≤ k → k * intervalMs < stopAt →
      schedulerInvokedAt intervalMs stopAt (k * intervalMs) = true) ∧
    (∀ t, stopAt ≤ t → schedulerInvokedAt intervalMs stopAt t = false) ∧
    (∀ t, 0 < t → schedulerInvokedAt intervalMs stopAt t = true →
      ∃ k, 1 ≤ k ∧ t = k * intervalMs ∧ t < stopAt) := by
  refine ⟨rfl, by simp [schedulerInvokedAt], ?_, ?_, ?_⟩
  · intro k hk hlt
    have h1 : k * intervalMs % intervalMs = 0 := Nat.mul_mod_left k intervalMs
    have h2 : 0 < k * intervalMs := Nat.mul_pos hk hint
    simp [schedulerInvokedAt, h1, h2, hlt]
  · intro t ht
    have ht0 : t ≠ 0 := by omega
    have ht1 : ¬ t < stopAt := by omega
    simp [schedulerInvokedAt, ht0, ht1]
  · intro t ht h
    simp only [schedulerInvokedAt, Bool.or_eq_true, beq_iff_eq,
      Bool.and_eq_true, decide_eq_true_eq] at h
    rcases h with h0 | ⟨⟨hpos, hmod⟩, hlt⟩
    · omega
    · obtain ⟨k, hk⟩ := Nat.dvd_of_mod_eq_zero hmod
      refine ⟨k, ?_, ?_, hlt⟩
      · rcases Nat.eq_zero_or_pos k with h0 | h1
        · rw [h0, Nat.mul_zero] at hk
          omega
        · exact h1
      · rw [hk, Nat.mul_comm]

/-- Witness for C8: with a 1000 ms interval and `stop()` at 2500 ms, the
callback runs at 0 and at 2000 ms. -/
theorem claim_C8_scheduler_witness :
    (0 : ℕ) < 1000 ∧ (0 : ℕ) < 2500 ∧
    schedulerInvokedAt 1000 2500 0 = true ∧
    schedulerInvokedAt 1000 2500 (2 * 1000) = true := by
  refine ⟨by decide, by decide, ?_, ?_⟩
  · exact (claim_C8_scheduler 1000 2500 (by decide) (by decide)).2.1
  · exact (claim_C8_scheduler 1000 2500 (by decide) (by decide)).2.2.1 2
      (by decide) (by decide)

end BitcoinDashboard
